import Mathlib

/-!
Verification of the orchestration core in `src/main.py` of the
`yogev-bot-clean` repository: the daily-menu notification scheduler
(`daily_menu_scheduler`, lines 136-231) and the event-router handler
registration in `main()` (lines 284-384).

The embedding models the Python code directly:
* machine state (per-user records read from / written to `NutritionDB`)
  becomes explicit Lean structures;
* the fallible external operations (`bot.send_message`, `get_chat` +
  `pin_message`, `save_user`, `get_all_users`) are driven by a Boolean
  outcome oracle, and the source's `try`/`except` structure is mirrored
  with `Except`;
* the observable behaviour of one sweep is a list of `Action`s (sends,
  pin attempts, saves, log lines).
-/

namespace YogevBot

/-- A wall-clock instant as used by the scheduler (`datetime.datetime.now()`).
`day` is the calendar date as an ordinal day index (`now.date()`); `hour`
and `minute` are the time of day.  Comparison of `datetime.date` values
becomes comparison of the `day` indices. -/
structure DateTime where
  day : Nat
  hour : Nat
  minute : Nat
deriving DecidableEq, Repr

/-- The two zero-padded decimal digits of a wall-clock hour (0-23), as
printed by `strftime("%H")`. -/
def hourDigits (h : Nat) : List Char :=
  if h < 10 then ['0', Nat.digitChar h]
  else if h < 20 then ['1', Nat.digitChar (h - 10)]
  else ['2', Nat.digitChar (h - 20)]

/-- `now.strftime("%H:00")` (src/main.py line 140): the hour zero-padded to
two digits followed by `":00"`. -/
def strftimeHH00 (t : DateTime) : String :=
  ⟨hourDigits t.hour ++ [':', '0', '0']⟩

/-- A string stored in the `last_menu_sent` field.  The scheduler only ever
stores `now.isoformat()` and Python's `datetime.fromisoformat` inverts
`isoformat`, so a stored string is modelled either as a round-tripping
serialized `DateTime` (`iso`) or as a string `fromisoformat` rejects
(`garbage`). -/
inductive StoredTs where
  | iso (t : DateTime)
  | garbage (s : String)
deriving DecidableEq, Repr

/-- `datetime.datetime.fromisoformat` on a stored `last_menu_sent` string:
succeeds exactly on strings produced by `isoformat`. -/
def fromisoformat : StoredTs → Option DateTime
  | .iso t => some t
  | .garbage _ => none

/-- Python truthiness of the stored string (`if last_menu_sent:` on line
164): any `isoformat` output is non-empty hence truthy; a garbage string is
truthy iff non-empty. -/
def StoredTs.truthy : StoredTs → Bool
  | .iso _ => true
  | .garbage s => !s.isEmpty

/-- The `flow` sub-dictionary of a user record.  The three keys the
scheduler reads or writes are explicit and optional (a Python dict may
lack any of them; reads use `.get` defaults); `extra` holds any other
keys stored under `flow` by external collaborators. -/
structure Flow where
  stage : Option String
  setup_complete : Option Bool
  day_count : Option Nat
  extra : List (String × String)
deriving DecidableEq, Repr

/-- `user_data.get("flow", \x7b\x7d)`: the default empty dict. -/
def emptyFlow : Flow := ⟨none, none, none, []⟩

/-- A user record as read from `nutrition_db`.  `daily_menu_enabled` and
`calorie_budget` are read with `.get(..., False)` / `.get(..., 0)`
defaults, so an absent key is identified with the default value;
`preferred_menu_hour`, `last_menu_sent`, `menu_sent_today` and
`menu_sent_date` may be absent (`none`).  `menu_sent_date` stores
`now.date().isoformat()`, modelled as the day index.  `extra` holds all
other top-level keys, owned by external collaborators. -/
structure UserData where
  flow : Option Flow
  daily_menu_enabled : Bool
  preferred_menu_hour : Option String
  last_menu_sent : Option StoredTs
  calorie_budget : Nat
  menu_sent_today : Option Bool
  menu_sent_date : Option Nat
  extra : List (String × String)
deriving DecidableEq, Repr

/-- An observable step performed while processing the sweep: outbound
transport calls, the persistence write, and log lines. -/
inductive Action where
  | sendMessage (chat_id : String) (text : String)
  | pinAttempt (chat_id : String)
  | saveUser (chat_id : String) (data : UserData)
  | logInfo (msg : String)
  | logError (msg : String)
deriving DecidableEq, Repr

def Action.isSend : Action → Bool
  | .sendMessage _ _ => true
  | _ => false

def Action.isPin : Action → Bool
  | .pinAttempt _ => true
  | _ => false

def Action.isSave : Action → Bool
  | .saveUser _ _ => true
  | _ => false

/-- Outcomes of the fallible external calls made while processing one user
in one sweep: the calorie-budget send, the `get_chat` + `pin_message`
pair, the menu-invitation send, and `save_user`. -/
structure UserOracle where
  send_calorie_ok : Bool
  pin_ok : Bool
  send_menu_ok : Bool
  save_ok : Bool

/-- All external calls succeed. -/
def allOk : UserOracle := ⟨true, true, true, true⟩

/-- The manual-request sentinel checked on line 174 of src/main.py. -/
def manualSentinel : String := "מעדיף לבקש לבד"

/-- The calorie-budget message text (line 179). -/
def calorieMsg (b : Nat) : String :=
  "📌 תקציב הקלוריות היומי שלך: " ++ toString b ++ " קלוריות"

/-- The menu-invitation message text (line 202). -/
def menuInviteText : String :=
  "🍽️ התפריט היומי שלך מוכן! לחץ על \x27לקבלת תפריט יומי מותאם אישית\x27"

/-- The `last_menu_sent` idempotency guard, lines 163-171: if the field is
present and truthy, try to parse it; a parse whose date component is `>=`
today logs and skips the user; a parse failure logs an error and falls
through (the guard is bypassed).  Returns the emitted log actions and
whether the user is skipped. -/
def lastSentGuard (now : DateTime) (uid : String) :
    Option StoredTs → List Action × Bool
  | none => ([], false)
  | some stored =>
    if stored.truthy = false then ([], false)
    else
      match fromisoformat stored with
      | some t =>
        if now.day ≤ t.day then
          ([.logInfo ("Menu already sent today for user " ++ uid)], true)
        else ([], false)
      | none =>
        ([.logError ("Error parsing last_menu_sent for user " ++ uid)], false)

/-- The record written by a successful firing, lines 209-221: the `flow`
sub-dict is replaced wholesale by exactly the three keys `stage`,
`setup_complete`, `day_count` (the read `day_count`, defaulted to 0,
plus one); `last_menu_sent` is stamped with `now.isoformat()`;
`menu_sent_today` and `menu_sent_date` are set; every other top-level
field is untouched. -/
def savedRecord (now : DateTime) (ud : UserData) : UserData :=
  { ud with
    flow := some { stage := some ("tracking"), setup_complete := some true,
                   day_count := some ((ud.flow.getD emptyFlow).day_count.getD 0 + 1),
                   extra := [] },
    last_menu_sent := some (StoredTs.iso now),
    menu_sent_today := some true,
    menu_sent_date := some now.day }

/-- The firing sequence for a user that passed every cohort check, lines
177-224: send the calorie message (failure logs and skips the user with
no write); best-effort pin it (failure logs, non-fatal); send the menu
invitation (failure logs and skips with no write); then build the updated
record and `save_user` it (a `save_user` failure raises out of this
sequence into the per-user `except`). -/
def fireActs (now : DateTime) (o : UserOracle) (uid : String) (ud : UserData) :
    List Action × Except String UserData :=
  if o.send_calorie_ok = false then
    ([.logError ("Error sending calorie message to user " ++ uid)], .ok ud)
  else
    let pinActs : List Action :=
      if o.pin_ok then [.pinAttempt uid]
      else [.pinAttempt uid, .logError ("Error pinning calorie message for user " ++ uid)]
    let acts1 := Action.sendMessage uid (calorieMsg ud.calorie_budget) :: pinActs
    if o.send_menu_ok = false then
      (acts1 ++ [.logError ("Error sending menu notification to user " ++ uid)], .ok ud)
    else
      let acts2 := acts1 ++ [Action.sendMessage uid menuInviteText]
      if o.save_ok = false then (acts2, .error ("save_user raised"))
      else
        (acts2 ++ [Action.saveUser uid (savedRecord now ud),
                   .logInfo ("Sent daily menu to user " ++ uid)],
         .ok (savedRecord now ud))

/-- The body of the per-user `try` inside the sweep loop, lines 148-224,
in source order: the `setup_complete` check, the `daily_menu_enabled`
check, the preferred-hour match, the `last_menu_sent` guard, the
manual-sentinel check, then the firing sequence.  Returns the actions
performed and either the record as it stands in the store afterwards or
the uncaught exception. -/
def processUser (now : DateTime) (o : UserOracle) (uid : String) (ud : UserData) :
    List Action × Except String UserData :=
  if ((ud.flow.getD emptyFlow).setup_complete.getD false) = false then
    ([.logInfo ("User " ++ uid ++ " has not completed setup, skipping daily menu")], .ok ud)
  else if ud.daily_menu_enabled = false then ([], .ok ud)
  else if ud.preferred_menu_hour ≠ some (strftimeHH00 now) then ([], .ok ud)
  else
    let g := lastSentGuard now uid ud.last_menu_sent
    if g.2 then (g.1, .ok ud)
    else if ud.preferred_menu_hour = some manualSentinel then (g.1, .ok ud)
    else
      let f := fireActs now o uid ud
      (g.1 ++ f.1, f.2)

/-- Outcomes of the external calls made in one whole sweep: the bulk
`get_all_users` read, and the per-user call outcomes. -/
structure Oracle where
  get_all_ok : Bool
  user : String → UserOracle

/-- The `for user_id, user_data in all_users.items()` loop, lines 146-228:
each user's processing is wrapped in a `try`/`except` that logs and
continues with the next user; the store keeps the old record when the
user's processing raised. -/
def sweepLoop (now : DateTime) (o : String → UserOracle) :
    List (String × UserData) → List Action × List (String × UserData)
  | [] => ([], [])
  | (uid, ud) :: rest =>
    let pr := processUser now (o uid) uid ud
    let step : List Action × UserData :=
      match pr.2 with
      | .ok u2 => (pr.1, u2)
      | .error _ =>
        (pr.1 ++ [Action.logError ("Error processing user " ++ uid ++ " in daily menu scheduler")], ud)
    let r2 := sweepLoop now o rest
    (step.1 ++ r2.1, (uid, step.2) :: r2.2)

/-- `daily_menu_scheduler`, lines 136-231: the whole body is wrapped in an
outer `try`/`except` that logs any escaped exception, so the periodic
entry point itself never raises.  A `get_all_users` failure (line 144)
escapes the loop-free prefix and is caught by the outer handler: the
sweep is aborted with no user processed and the store unchanged. -/
def daily_menu_scheduler (now : DateTime) (o : Oracle)
    (store : List (String × UserData)) :
    Except String (List Action × List (String × UserData)) :=
  let body : Except String (List Action × List (String × UserData)) :=
    if o.get_all_ok = false then .error ("get_all_users raised")
    else .ok (sweepLoop now o.user store)
  match body with
  | .ok r => .ok r
  | .error _ => .ok ([Action.logError ("Error in daily menu scheduler")], store)

/-!
Event router: the handler registrations in `main()`, lines 284-384.
All handlers are added to dispatch group 0 (the `add_handler` default;
`log_update` is added with an explicit `group=0`), and within one group
python-telegram-bot dispatches an update to the FIRST handler whose
filter accepts it, then stops for that group.  For a text message from a
user with no active conversation the relevant matchers, in registration
order, are modelled below; the `CallbackQueryHandler`s never accept a
text message and are omitted.
-/

/-- `p` is a prefix of the text `s` (character-wise). -/
def strPre (p s : String) : Bool := p.data.isPrefixOf s.data

/-- The message text starts a bot command (`filters.COMMAND`). -/
def isCommand (s : String) : Bool := strPre ("/") s

/-- `CommandHandler(cmd, ...)`: accepts the command message `/cmd`,
optionally followed by arguments. -/
def matchesCommand (cmd : String) (s : String) : Bool :=
  isCommand s && (s = "/" ++ cmd || strPre ("/" ++ cmd ++ " ") s)

/-- The alternatives of `menu_regex` (line 323); the pattern is anchored
`^(...)$` so it accepts exactly these texts. -/
def menu_options : List String :=
  ["לקבלת תפריט יומי מותאם אישית", "מה אכלתי היום",
   "בניית ארוחה לפי מה שיש לי בבית", "קבלת דוח", "תזכורות על שתיית מים"]

/-- The texts accepted by the anchored end-of-day-summary pattern
`^✅ סיימתי להיום$|^סיימתי( להיום)?[.!]?$` (line 332). -/
def summary_options : List String :=
  ["✅ סיימתי להיום", "סיימתי", "סיימתי.", "סיימתי!",
   "סיימתי להיום", "סיימתי להיום.", "סיימתי להיום!"]

/-- The alternatives of `help_action_regex` (line 352). -/
def help_action_options : List String :=
  ["שאל שאלה חופשית", "שאלי שאלה חופשית", "מעבר לשאלון אישי"]

/-- The alternatives of the update-personal-details pattern `^(כן|לא)$`
(line 363). -/
def yes_no_options : List String := ["כן", "לא"]

/-- The group-0 handlers that can accept a plain text message when the
originating user has no active conversation, in registration order. -/
inductive Handler where
  | conv_entry_start
  | daily_choice
  | summary
  | help_button
  | help_action
  | update_details_yes_no
  | cmd_help
  | cmd_menu
  | cmd_reset
  | free_text
  | log_tap
deriving DecidableEq, Repr

/-- Each handler's filter on the text of an inbound message, translated
from the registrations in `main()`:
the `ConversationHandler` with no active conversation accepts only its
entry point `/start`; the five `MessageHandler` rules accept their
anchored regexes; the three `CommandHandler`s accept their commands; the
catch-all free-text handler accepts
`TEXT & ~COMMAND & ~menu_regex & ~help_action_regex & ~(כן|לא)`
(line 376); `log_update` is registered with `filters.ALL`. -/
def accepts : Handler → String → Bool
  | .conv_entry_start, s => matchesCommand ("start") s
  | .daily_choice, s => menu_options.contains s
  | .summary, s => summary_options.contains s
  | .help_button, s => s == "עזרה"
  | .help_action, s => help_action_options.contains s
  | .update_details_yes_no, s => yes_no_options.contains s
  | .cmd_help, s => matchesCommand ("help") s
  | .cmd_menu, s => matchesCommand ("menu") s
  | .cmd_reset, s => matchesCommand ("reset") s
  | .free_text, s =>
      !isCommand s && !menu_options.contains s &&
      !help_action_options.contains s && !yes_no_options.contains s
  | .log_tap, _ => true

/-- The group-0 registration order of the text-capable handlers
(`application.add_handler` call order in `main()`). -/
def dispatchOrder : List Handler :=
  [.conv_entry_start, .daily_choice, .summary, .help_button, .help_action,
   .update_details_yes_no, .cmd_help, .cmd_menu, .cmd_reset, .free_text, .log_tap]

/-- Group-0 dispatch of a text message from a user with no active
conversation: the first registered handler whose filter accepts the text
handles it; later group-0 handlers (including `log_update`) are skipped. -/
def dispatchText (s : String) : Option Handler :=
  dispatchOrder.find? (fun h => accepts h s)

/-- The disjunction of every text matcher registered before the catch-all
free-text handler. -/
def priorTextMatchers (s : String) : Bool :=
  accepts .conv_entry_start s || accepts .daily_choice s || accepts .summary s ||
  accepts .help_button s || accepts .help_action s ||
  accepts .update_details_yes_no s || accepts .cmd_help s ||
  accepts .cmd_menu s || accepts .cmd_reset s

/-!
Scenario records and theorems for claims about the scheduler and router.
-/

/-- The user record of the spec scenario: `setup_complete: true`,
`daily_menu_enabled: true`, `preferred_menu_hour: "08:00"`,
`last_menu_sent: null`, with day count `d` and calorie budget `b`. -/
def udScenario (d b : Nat) : UserData :=
  { flow := some ⟨some ("tracking"), some true, some d, []⟩,
    daily_menu_enabled := true,
    preferred_menu_hour := some ("08:00"),
    last_menu_sent := none,
    calorie_budget := b,
    menu_sent_today := none, menu_sent_date := none, extra := [] }

/-- C3: for a user record with `setup_complete` true, `daily_menu_enabled`
true, `preferred_menu_hour` `"08:00"` and `last_menu_sent` null, a sweep
executing at wall-clock 08:03 (with the transport and store succeeding)
performs exactly two message sends and one pin attempt, replaces `flow`
with stage `"tracking"`, `setup_complete` still true and `day_count`
incremented by exactly 1, stamps `last_menu_sent` with today's
timestamp, and persists the record via `save_user`. -/
theorem C3_scenario_0803 (day d b : Nat) (uid : String) :
    processUser ⟨day, 8, 3⟩ allOk uid (udScenario d b) =
      ([Action.sendMessage uid (calorieMsg b),
        Action.pinAttempt uid,
        Action.sendMessage uid menuInviteText,
        Action.saveUser uid (savedRecord ⟨day, 8, 3⟩ (udScenario d b)),
        Action.logInfo ("Sent daily menu to user " ++ uid)],
       .ok (savedRecord ⟨day, 8, 3⟩ (udScenario d b))) ∧
    ((processUser ⟨day, 8, 3⟩ allOk uid (udScenario d b)).1.filter Action.isSend).length = 2 ∧
    ((processUser ⟨day, 8, 3⟩ allOk uid (udScenario d b)).1.filter Action.isPin).length = 1 ∧
    ((processUser ⟨day, 8, 3⟩ allOk uid (udScenario d b)).1.filter Action.isSave).length = 1 ∧
    (savedRecord ⟨day, 8, 3⟩ (udScenario d b)).flow =
      some ⟨some ("tracking"), some true, some (d + 1), []⟩ ∧
    (savedRecord ⟨day, 8, 3⟩ (udScenario d b)).last_menu_sent =
      some (StoredTs.iso ⟨day, 8, 3⟩) := by
  refine ⟨?_, ?_, ?_, ?_, ?_, ?_⟩ <;> rfl

/-- The guard emits only log lines, never a save. -/
lemma lastSentGuard_filter_isSave (now : DateTime) (uid : String)
    (lms : Option StoredTs) :
    (lastSentGuard now uid lms).1.filter Action.isSave = [] := by
  cases lms with
  | none => rfl
  | some stored =>
    cases stored with
    | iso t =>
      simp only [lastSentGuard, StoredTs.truthy, fromisoformat]
      split_ifs <;> simp [Action.isSave]
    | garbage s =>
      simp only [lastSentGuard, StoredTs.truthy, fromisoformat]
      split_ifs <;> simp [Action.isSave]

/-- Case analysis of the firing sequence: either no save is performed and
the record is returned unchanged (or the save raised), or exactly the
fully-updated record is saved and returned. -/
lemma fireActs_spec (now : DateTime) (o : UserOracle) (uid : String) (ud : UserData) :
    ((fireActs now o uid ud).1.filter Action.isSave = [] ∧
      ((fireActs now o uid ud).2 = .ok ud ∨
        (fireActs now o uid ud).2 = .error ("save_user raised"))) ∨
    ((fireActs now o uid ud).1.filter Action.isSave = [Action.saveUser uid (savedRecord now ud)] ∧
      (fireActs now o uid ud).2 = .ok (savedRecord now ud)) := by
  unfold fireActs
  split_ifs <;> simp [Action.isSave, List.filter]

/-- Case analysis of one user's processing: either no save happened and the
stored record is unchanged (the skip paths, the failed-send paths, and
the raised-save path), or the user passed every check (in particular the
read record had `setup_complete` true) and exactly one save of the
fully-updated record happened. -/
lemma processUser_spec (now : DateTime) (o : UserOracle) (uid : String) (ud : UserData) :
    ((processUser now o uid ud).1.filter Action.isSave = [] ∧
      ((processUser now o uid ud).2 = .ok ud ∨
        (processUser now o uid ud).2 = .error ("save_user raised"))) ∨
    ((processUser now o uid ud).1.filter Action.isSave = [Action.saveUser uid (savedRecord now ud)] ∧
      (processUser now o uid ud).2 = .ok (savedRecord now ud) ∧
      ((ud.flow.getD emptyFlow).setup_complete.getD false) = true) := by
  simp only [processUser]
  by_cases h1 : ((ud.flow.getD emptyFlow).setup_complete.getD false) = false
  · rw [if_pos h1]; left; simp [Action.isSave, List.filter]
  rw [if_neg h1]
  by_cases h2 : ud.daily_menu_enabled = false
  · rw [if_pos h2]; left; simp
  rw [if_neg h2]
  by_cases h3 : ud.preferred_menu_hour ≠ some (strftimeHH00 now)
  · rw [if_pos h3]; left; simp
  rw [if_neg h3]
  by_cases hg : (lastSentGuard now uid ud.last_menu_sent).2 = true
  · rw [if_pos hg]; left; simp [lastSentGuard_filter_isSave]
  rw [if_neg hg]
  by_cases h4 : ud.preferred_menu_hour = some manualSentinel
  · rw [if_pos h4]; left; simp [lastSentGuard_filter_isSave]
  rw [if_neg h4]
  rcases fireActs_spec now o uid ud with ⟨hf, hse⟩ | ⟨hf, hse⟩
  · left
    constructor
    · simp [List.filter_append, lastSentGuard_filter_isSave, hf]
    · simpa using hse
  · right
    refine ⟨?_, by simpa using hse, ?_⟩
    · simp [List.filter_append, lastSentGuard_filter_isSave, hf]
    · simpa using h1

/-- The guard emits only log lines, never a send. -/
lemma lastSentGuard_filter_isSend (now : DateTime) (uid : String)
    (lms : Option StoredTs) :
    (lastSentGuard now uid lms).1.filter Action.isSend = [] := by
  cases lms with
  | none => rfl
  | some stored =>
    cases stored with
    | iso t =>
      simp only [lastSentGuard, StoredTs.truthy, fromisoformat]
      split_ifs <;> simp [Action.isSend]
    | garbage s =>
      simp only [lastSentGuard, StoredTs.truthy, fromisoformat]
      split_ifs <;> simp [Action.isSend]

/-- If the calorie-budget send or the menu-invitation send fails, the
firing sequence performs no save and returns the record unchanged. -/
lemma fireActs_sendFail (now : DateTime) (o : UserOracle) (uid : String)
    (ud : UserData)
    (h : o.send_calorie_ok = false ∨ o.send_menu_ok = false) :
    (fireActs now o uid ud).1.filter Action.isSave = [] ∧
    (fireActs now o uid ud).2 = .ok ud := by
  unfold fireActs
  rcases h with h | h <;> split_ifs <;> simp_all [Action.isSave, List.filter]

/-- If the firing sequence performs no save and returns the record
unchanged, so does the whole per-user processing, via every path. -/
lemma processUser_of_fireActs (now : DateTime) (o : UserOracle) (uid : String)
    (ud : UserData)
    (hf1 : (fireActs now o uid ud).1.filter Action.isSave = [])
    (hf2 : (fireActs now o uid ud).2 = .ok ud) :
    (processUser now o uid ud).1.filter Action.isSave = [] ∧
    (processUser now o uid ud).2 = .ok ud := by
  simp only [processUser]
  by_cases h1 : ((ud.flow.getD emptyFlow).setup_complete.getD false) = false
  · rw [if_pos h1]; simp [Action.isSave, List.filter]
  rw [if_neg h1]
  by_cases h2 : ud.daily_menu_enabled = false
  · rw [if_pos h2]; simp
  rw [if_neg h2]
  by_cases h3 : ud.preferred_menu_hour ≠ some (strftimeHH00 now)
  · rw [if_pos h3]; simp
  rw [if_neg h3]
  by_cases hg : (lastSentGuard now uid ud.last_menu_sent).2 = true
  · rw [if_pos hg]; simp [lastSentGuard_filter_isSave]
  rw [if_neg hg]
  by_cases h4 : ud.preferred_menu_hour = some manualSentinel
  · rw [if_pos h4]; simp [lastSentGuard_filter_isSave]
  rw [if_neg h4]
  simp [List.filter_append, lastSentGuard_filter_isSave, hf1, hf2]

/-- When only the pin fails, the firing sequence still performs both sends
and the save, with the pin failure merely logged. -/
lemma fireActs_pinFail (now : DateTime) (o : UserOracle) (uid : String)
    (ud : UserData) (hs1 : o.send_calorie_ok = true) (hp : o.pin_ok = false)
    (hs2 : o.send_menu_ok = true) (hsv : o.save_ok = true) :
    fireActs now o uid ud =
      ([Action.sendMessage uid (calorieMsg ud.calorie_budget),
        Action.pinAttempt uid,
        Action.logError ("Error pinning calorie message for user " ++ uid),
        Action.sendMessage uid menuInviteText,
        Action.saveUser uid (savedRecord now ud),
        Action.logInfo ("Sent daily menu to user " ++ uid)],
       .ok (savedRecord now ud)) := by
  simp [fireActs, hs1, hp, hs2, hsv]

/-- A user who passes every cohort check proceeds to the firing sequence,
prefixed by whatever the guard logged. -/
lemma processUser_fires (now : DateTime) (o : UserOracle) (uid : String)
    (ud : UserData)
    (h1 : ((ud.flow.getD emptyFlow).setup_complete.getD false) = true)
    (h2 : ud.daily_menu_enabled = true)
    (h3 : ud.preferred_menu_hour = some (strftimeHH00 now))
    (hg : (lastSentGuard now uid ud.last_menu_sent).2 = false)
    (h5 : ud.preferred_menu_hour ≠ some manualSentinel) :
    processUser now o uid ud =
      ((lastSentGuard now uid ud.last_menu_sent).1 ++ (fireActs now o uid ud).1,
       (fireActs now o uid ud).2) := by
  simp only [processUser]
  rw [if_neg (by simp [h1]), if_neg (by simp [h2]), if_neg (not_not_intro h3),
      if_neg (by simp [hg]), if_neg h5]

/-- C4: for every user record, sweep time and oracle, a failure of the
calorie-budget send (step 1) or of the menu-invitation send (step 2)
makes the scheduler skip the user for the current sweep with no
bookkeeping write — no `saveUser` action is performed and the stored
record is unchanged — whereas for a matching user a failure of the
best-effort pin alone is only logged and blocks nothing: both sends
still happen and the updated record is saved. -/
theorem C4_send_failure_skips_bookkeeping (now : DateTime) (o : UserOracle)
    (uid : String) (ud : UserData) :
    (o.send_calorie_ok = false →
       (processUser now o uid ud).1.filter Action.isSave = [] ∧
       (processUser now o uid ud).2 = .ok ud) ∧
    (o.send_menu_ok = false →
       (processUser now o uid ud).1.filter Action.isSave = [] ∧
       (processUser now o uid ud).2 = .ok ud) ∧
    (((ud.flow.getD emptyFlow).setup_complete.getD false) = true →
      ud.daily_menu_enabled = true →
      ud.preferred_menu_hour = some (strftimeHH00 now) →
      (lastSentGuard now uid ud.last_menu_sent).2 = false →
      ud.preferred_menu_hour ≠ some manualSentinel →
      o.send_calorie_ok = true → o.pin_ok = false →
      o.send_menu_ok = true → o.save_ok = true →
      (processUser now o uid ud).1.filter Action.isSend =
        [Action.sendMessage uid (calorieMsg ud.calorie_budget),
         Action.sendMessage uid menuInviteText] ∧
      Action.logError ("Error pinning calorie message for user " ++ uid) ∈
        (processUser now o uid ud).1 ∧
      (processUser now o uid ud).2 = .ok (savedRecord now ud)) := by
  refine ⟨fun h => processUser_of_fireActs now o uid ud
      (fireActs_sendFail now o uid ud (Or.inl h)).1
      (fireActs_sendFail now o uid ud (Or.inl h)).2,
    fun h => processUser_of_fireActs now o uid ud
      (fireActs_sendFail now o uid ud (Or.inr h)).1
      (fireActs_sendFail now o uid ud (Or.inr h)).2,
    fun h1 h2 h3 hg h5 hs1 hp hs2 hsv => ?_⟩
  rw [processUser_fires now o uid ud h1 h2 h3 hg h5,
      fireActs_pinFail now o uid ud hs1 hp hs2 hsv]
  refine ⟨?_, ?_, rfl⟩
  · simp [List.filter_append, lastSentGuard_filter_isSend, Action.isSend, List.filter]
  · simp

/-- C9: for every user record whose `last_menu_sent` is present (a
non-empty, hence truthy, string) but not parseable, and every sweep time
and oracle, if the other cohort conditions hold then the parse failure
is logged and the idempotency guard is bypassed entirely: the user
proceeds to the full firing sequence.  The record is otherwise
arbitrary — in particular it may carry the same-day success bookkeeping
(`menu_sent_today`, `menu_sent_date` of today) left by an earlier
successful notification on the same calendar date. -/
theorem C9_garbage_last_sent_bypasses_guard (now : DateTime) (o : UserOracle)
    (uid : String) (ud : UserData) (s : String)
    (hl : ud.last_menu_sent = some (.garbage s)) (hs : s ≠ "")
    (h1 : ((ud.flow.getD emptyFlow).setup_complete.getD false) = true)
    (h2 : ud.daily_menu_enabled = true)
    (h3 : ud.preferred_menu_hour = some (strftimeHH00 now))
    (h5 : ud.preferred_menu_hour ≠ some manualSentinel) :
    processUser now o uid ud =
      (Action.logError ("Error parsing last_menu_sent for user " ++ uid) ::
         (fireActs now o uid ud).1,
       (fireActs now o uid ud).2) := by
  have hie : s.isEmpty = false := by
    cases hie : s.isEmpty
    · rfl
    · exact absurd ((String.isEmpty_iff s).mp hie) hs
  have hguard : lastSentGuard now uid ud.last_menu_sent =
      ([Action.logError ("Error parsing last_menu_sent for user " ++ uid)], false) := by
    rw [hl]
    simp [lastSentGuard, StoredTs.truthy, fromisoformat, hie]
  rw [processUser_fires now o uid ud h1 h2 h3 (by rw [hguard]) h5, hguard]
  simp

/-- C8: every `save_user` write the scheduler performs increments the read
`flow.day_count` (defaulted to 0) by exactly one — so the written value
is strictly greater — and it writes `setup_complete = true` only for a
record whose read `setup_complete` was already true. -/
theorem C8_write_invariants (now : DateTime) (o : UserOracle) (uid u2 : String)
    (ud d2 : UserData)
    (h : Action.saveUser u2 d2 ∈ (processUser now o uid ud).1) :
    (d2.flow.getD emptyFlow).day_count.getD 0 =
      (ud.flow.getD emptyFlow).day_count.getD 0 + 1 ∧
    (ud.flow.getD emptyFlow).day_count.getD 0 <
      (d2.flow.getD emptyFlow).day_count.getD 0 ∧
    ((ud.flow.getD emptyFlow).setup_complete.getD false) = true ∧
    (d2.flow.getD emptyFlow).setup_complete = some true := by
  have hmem : Action.saveUser u2 d2 ∈ (processUser now o uid ud).1.filter Action.isSave :=
    List.mem_filter.2 ⟨h, rfl⟩
  rcases processUser_spec now o uid ud with ⟨hf, _⟩ | ⟨hf, _, hsetup⟩
  · rw [hf] at hmem; cases hmem
  · rw [hf] at hmem
    have heq := List.mem_singleton.1 hmem
    obtain ⟨-, hd2⟩ := Action.saveUser.inj heq
    subst hd2
    refine ⟨?_, ?_, hsetup, ?_⟩ <;> simp [savedRecord]

/-- C10: every `save_user` write replaces the `flow` sub-record wholesale
with exactly the three keys `stage`, `setup_complete`, `day_count`
(deleting any other key previously stored inside `flow`), stamps
`last_menu_sent`, `menu_sent_today` and `menu_sent_date`, and leaves
every other top-level field of the record unchanged. -/
theorem C10_flow_wholesale_replacement (now : DateTime) (o : UserOracle)
    (uid u2 : String) (ud d2 : UserData)
    (h : Action.saveUser u2 d2 ∈ (processUser now o uid ud).1) :
    d2.flow = some { stage := some ("tracking"), setup_complete := some true,
                     day_count := some ((ud.flow.getD emptyFlow).day_count.getD 0 + 1),
                     extra := [] } ∧
    d2.last_menu_sent = some (StoredTs.iso now) ∧
    d2.menu_sent_today = some true ∧
    d2.menu_sent_date = some now.day ∧
    d2.daily_menu_enabled = ud.daily_menu_enabled ∧
    d2.preferred_menu_hour = ud.preferred_menu_hour ∧
    d2.calorie_budget = ud.calorie_budget ∧
    d2.extra = ud.extra := by
  have hmem : Action.saveUser u2 d2 ∈ (processUser now o uid ud).1.filter Action.isSave :=
    List.mem_filter.2 ⟨h, rfl⟩
  rcases processUser_spec now o uid ud with ⟨hf, _⟩ | ⟨hf, _, -⟩
  · rw [hf] at hmem; cases hmem
  · rw [hf] at hmem
    have heq := List.mem_singleton.1 hmem
    obtain ⟨-, hd2⟩ := Action.saveUser.inj heq
    subst hd2
    refine ⟨?_, ?_, ?_, ?_, ?_, ?_, ?_, ?_⟩ <;> simp [savedRecord]

/-- The manual-request sentinel differs from every `"HH:00"` string
`strftime` can produce for a wall-clock hour. -/
lemma sentinel_ne_hourString :
    ∀ h : Nat, h < 24 →
      manualSentinel ≠ (⟨hourDigits h ++ [':', '0', '0']⟩ : String) := by decide

/-- C7: a user whose `preferred_menu_hour` is the manual sentinel
`"מעדיף לבקש לבד"` is never sent any message by the scheduler, whatever
the wall-clock time of the sweep: the sentinel never equals the
`"HH:00"` string of the current hour, so the hour-match check already
skips the user (and the explicit sentinel check would too), leaving the
record unchanged. -/
theorem C7_manual_sentinel_never_fires (t : DateTime) (o : UserOracle)
    (uid : String) (ud : UserData)
    (hs : ud.preferred_menu_hour = some manualSentinel) (hh : t.hour < 24) :
    (processUser t o uid ud).1.filter Action.isSend = [] ∧
    (processUser t o uid ud).2 = .ok ud := by
  have h3 : ud.preferred_menu_hour ≠ some (strftimeHH00 t) := by
    rw [hs]
    intro hcontra
    exact sentinel_ne_hourString t.hour hh (Option.some.inj hcontra)
  simp only [processUser]
  by_cases h1 : ((ud.flow.getD emptyFlow).setup_complete.getD false) = false
  · rw [if_pos h1]; simp [Action.isSend, List.filter]
  rw [if_neg h1]
  by_cases h2 : ud.daily_menu_enabled = false
  · rw [if_pos h2]; simp
  rw [if_neg h2]
  rw [if_pos h3]
  simp

/-- C5: (i) an exception raised while processing one user is caught and
logged and the sweep continues with the remaining users exactly as it
would have without that user; (ii) a failing bulk `get_all_users` read
aborts the whole sweep — the outer handler logs it, no user is
processed, and the store is unchanged; (iii) `daily_menu_scheduler`
never propagates an exception out of its periodic entry point: its
result is always `ok`. -/
theorem C5_error_containment :
    (∀ (now : DateTime) (o : String → UserOracle) (uid : String) (ud : UserData)
        (rest : List (String × UserData)) (e : String),
        (processUser now (o uid) uid ud).2 = .error e →
        sweepLoop now o ((uid, ud) :: rest) =
          ((processUser now (o uid) uid ud).1 ++
             [Action.logError ("Error processing user " ++ uid ++ " in daily menu scheduler")] ++
             (sweepLoop now o rest).1,
           (uid, ud) :: (sweepLoop now o rest).2)) ∧
    (∀ (now : DateTime) (u : String → UserOracle) (store : List (String × UserData)),
        daily_menu_scheduler now ⟨false, u⟩ store =
          .ok ([Action.logError ("Error in daily menu scheduler")], store)) ∧
    (∀ (now : DateTime) (o : Oracle) (store : List (String × UserData)),
        ∃ r, daily_menu_scheduler now o store = .ok r) := by
  refine ⟨?_, ?_, ?_⟩
  · intro now o uid ud rest e he
    simp [sweepLoop, he]
  · intro now u store
    rfl
  · intro now o store
    cases hg : o.get_all_ok
    · exact ⟨([Action.logError ("Error in daily menu scheduler")], store),
        by simp [daily_menu_scheduler, hg]⟩
    · exact ⟨sweepLoop now o.user store, by simp [daily_menu_scheduler, hg]⟩

/-- The record a user holds in the store after one sweep processed them:
updated on a successful save, unchanged otherwise (including when the
per-user `except` caught a raised `save_user`). -/
def nextData (now : DateTime) (o : UserOracle) (uid : String) (ud : UserData) : UserData :=
  match (processUser now o uid ud).2 with
  | .ok u => u
  | .error _ => ud

/-- The number of completed (saved) firings in one processing of the user:
the number of `saveUser` actions performed. -/
def fireCount (now : DateTime) (o : UserOracle) (uid : String) (ud : UserData) : Nat :=
  ((processUser now o uid ud).1.filter Action.isSave).length

/-- Repeated scheduler visits to one user: each element of `runs` is the
wall-clock time of one sweep together with that sweep's external-call
outcomes; the store record evolves through `nextData` and the result is
the total number of completed firings. -/
def runsOn (uid : String) : UserData → List (DateTime × UserOracle) → Nat
  | _, [] => 0
  | ud, (t, o) :: rest => fireCount t o uid ud + runsOn uid (nextData t o uid ud) rest

/-- One visit either completes no firing and leaves the stored record
unchanged, or completes exactly one firing and stamps the record. -/
lemma runsOn_step_cases (now : DateTime) (o : UserOracle) (uid : String) (ud : UserData) :
    (fireCount now o uid ud = 0 ∧ nextData now o uid ud = ud) ∨
    (fireCount now o uid ud = 1 ∧ nextData now o uid ud = savedRecord now ud) := by
  rcases processUser_spec now o uid ud with ⟨hf, hok | herr⟩ | ⟨hf, hok, -⟩
  · exact Or.inl ⟨by simp [fireCount, hf], by simp [nextData, hok]⟩
  · exact Or.inl ⟨by simp [fireCount, hf], by simp [nextData, herr]⟩
  · exact Or.inr ⟨by simp [fireCount, hf], by simp [nextData, hok]⟩

/-- If the stored `last_menu_sent` parses to a timestamp whose date is on
or after the sweep's date, the idempotency guard skips the user: nothing
fires and the record is unchanged. -/
lemma guard_skip (now : DateTime) (o : UserOracle) (uid : String) (ud : UserData)
    (t0 : DateTime) (hl : ud.last_menu_sent = some (.iso t0)) (hd : now.day ≤ t0.day) :
    fireCount now o uid ud = 0 ∧ nextData now o uid ud = ud := by
  have hg : lastSentGuard now uid ud.last_menu_sent =
      ([.logInfo ("Menu already sent today for user " ++ uid)], true) := by
    simp [lastSentGuard, hl, StoredTs.truthy, fromisoformat, hd]
  simp only [fireCount, nextData, processUser]
  by_cases h1 : ((ud.flow.getD emptyFlow).setup_complete.getD false) = false
  · rw [if_pos h1]; exact ⟨by simp [Action.isSave, List.filter], rfl⟩
  rw [if_neg h1]
  by_cases h2 : ud.daily_menu_enabled = false
  · rw [if_pos h2]; exact ⟨rfl, rfl⟩
  rw [if_neg h2]
  by_cases h3 : ud.preferred_menu_hour ≠ some (strftimeHH00 now)
  · rw [if_pos h3]; exact ⟨rfl, rfl⟩
  rw [if_neg h3]
  rw [hg]
  exact ⟨by simp [Action.isSave, List.filter], rfl⟩

/-- Once the stored record carries today's (or a later) date in
`last_menu_sent`, a whole sequence of same-day visits completes no
firing at all. -/
lemma runsOn_zero (uid : String) (d : Nat) (t0 : DateTime) (hd : d ≤ t0.day) :
    ∀ (runs : List (DateTime × UserOracle)) (ud : UserData),
      ud.last_menu_sent = some (.iso t0) →
      (∀ p ∈ runs, (Prod.fst p).day = d) →
      runsOn uid ud runs = 0 := by
  intro runs
  induction runs with
  | nil => intro ud _ _; rfl
  | cons p rest ih =>
    obtain ⟨t, o⟩ := p
    intro ud hl hall
    have hday : t.day = d := hall (t, o) (List.mem_cons_self _ _)
    obtain ⟨hc, hn⟩ := guard_skip t o uid ud t0 hl (by rw [hday]; exact hd)
    rw [runsOn, hc, hn, Nat.zero_add]
    exact ih ud hl (fun q hq => hall q (List.mem_cons_of_mem _ hq))

/-- C1: for one user and one calendar date, at most one scheduler-triggered
send sequence completes successfully, no matter how many sweeps visit
the user that day and whatever each sweep's transport outcomes are: a
completed firing stamps `last_menu_sent` with the sweep's timestamp, and
every later same-day visit finds its date component `>=` today and
skips. -/
theorem C1_at_most_one_per_day (uid : String) (d : Nat)
    (runs : List (DateTime × UserOracle)) (ud : UserData)
    (hall : ∀ p ∈ runs, (Prod.fst p).day = d) :
    runsOn uid ud runs ≤ 1 := by
  induction runs generalizing ud with
  | nil => exact Nat.zero_le 1
  | cons p rest ih =>
    obtain ⟨t, o⟩ := p
    have hday : t.day = d := hall (t, o) (List.mem_cons_self _ _)
    have hrest : ∀ p ∈ rest, (Prod.fst p).day = d :=
      fun q hq => hall q (List.mem_cons_of_mem _ hq)
    rcases runsOn_step_cases t o uid ud with ⟨hc, hn⟩ | ⟨hc, hn⟩
    · rw [runsOn, hc, hn, Nat.zero_add]
      exact ih _ hrest
    · rw [runsOn, hc, hn]
      have hz : runsOn uid (savedRecord t ud) rest = 0 :=
        runsOn_zero uid d t (hday ▸ Nat.le_refl _) rest (savedRecord t ud)
          (by simp [savedRecord]) hrest
      rw [hz]

/-- C2 counterexample: the catch-all free-text filter is NOT the logical
complement of the union of the prior matchers — the text `"עזרה"` is
accepted both by the help-button rule and by the catch-all's filter
(its negative set omits the help-button and summary patterns) — and the
unknown command `"/whoami"` is claimed by neither a dispatch rule nor the
catch-all: it falls through to the last-registered logging handler. -/
theorem C2_counterexample :
    (¬ ∀ s, accepts Handler.free_text s = !(priorTextMatchers s)) ∧
    dispatchText ("/whoami") = some Handler.log_tap :=
  ⟨fun hall => absurd (hall ("עזרה")) (by decide), by decide⟩

/-- C2 as amended: for every NON-COMMAND text input arriving with no
active conversation, exactly one handler — a declared dispatch rule or
the catch-all free-text handler, never the logging fallback — claims it,
deterministically as the first registration-order match.  (As the
counterexample shows, the unamended claim fails in two ways: a command
other than the four registered ones is claimed by neither a rule nor the
catch-all, and the catch-all's negative filter omits the summary and
help-button patterns, which are kept from it only by registration
order.) -/
theorem C2_total_deterministic (s : String) (h : isCommand s = false) :
    ∃ hd, dispatchText s = some hd ∧ hd ≠ Handler.log_tap ∧ accepts hd s = true := by
  have hc : ∀ cmd, matchesCommand cmd s = false := by
    intro cmd
    simp [matchesCommand, h]
  by_cases m1 : s ∈ menu_options
  · exact ⟨.daily_choice,
      by simp [dispatchText, dispatchOrder, List.find?, accepts, hc, m1],
      by decide, by simp [accepts, m1]⟩
  by_cases m2 : s ∈ summary_options
  · exact ⟨.summary,
      by simp [dispatchText, dispatchOrder, List.find?, accepts, hc, m1, m2],
      by decide, by simp [accepts, m2]⟩
  by_cases m3 : s = "עזרה"
  · exact ⟨.help_button, by subst m3; decide, by decide, by subst m3; decide⟩
  by_cases m4 : s ∈ help_action_options
  · exact ⟨.help_action,
      by simp [dispatchText, dispatchOrder, List.find?, accepts, hc, beq_eq_decide,
               m1, m2, m3, m4],
      by decide, by simp [accepts, m4]⟩
  by_cases m5 : s ∈ yes_no_options
  · exact ⟨.update_details_yes_no,
      by simp [dispatchText, dispatchOrder, List.find?, accepts, hc, beq_eq_decide,
               m1, m2, m3, m4, m5],
      by decide, by simp [accepts, m5]⟩
  exact ⟨.free_text,
    by simp [dispatchText, dispatchOrder, List.find?, accepts, hc, beq_eq_decide,
             h, m1, m2, m3, m4, m5],
    by decide, by simp [accepts, h, m1, m4, m5]⟩

/-- C6 (code bug): the passive logging tap `log_update` is registered with
`group=0`, the same dispatch group as every other handler, so the plain
text `"שלום"` is dispatched to the catch-all free-text handler and the
tap — whose `filters.ALL` filter would accept the message — is skipped:
it does not observe events claimed by an earlier group-0 handler,
contrary to the claim (and to the code's own comment that it prints
every received update). -/
theorem C6_log_tap_not_universal :
    dispatchText ("שלום") = some Handler.free_text ∧
    accepts Handler.log_tap ("שלום") = true ∧
    Handler.free_text ≠ Handler.log_tap := by decide

/-!
Concrete witnesses for the theorems that carry hypotheses.
-/

/-- A record with extra keys both inside `flow` and at top level, eligible
at 09:00. -/
def udExtra : UserData :=
  { flow := some ⟨some ("onboarding"), some true, some 4, [("menus_sent", "5")]⟩,
    daily_menu_enabled := true,
    preferred_menu_hour := some ("09:00"),
    last_menu_sent := none,
    calorie_budget := 2000,
    menu_sent_today := some false,
    menu_sent_date := some 2,
    extra := [("name", "יוגב")] }

/-- A variant of `udExtra` eligible at 14:00. -/
def udExtra2 : UserData :=
  { udExtra with preferred_menu_hour := some ("14:00"), calorie_budget := 1750 }

/-- The scenario record with the manual-request sentinel hour. -/
def udManual : UserData :=
  { udScenario 0 1800 with preferred_menu_hour := some manualSentinel }

/-- All external calls succeed except `save_user`, which raises. -/
def oSaveFail : UserOracle := ⟨true, true, true, false⟩

/-- Witness for C1: two same-day sweeps at 08:03 and 08:13 on the eligible
scenario record complete at most one firing. -/
theorem C1_witness :
    runsOn ("1") (udScenario 0 1800) [(⟨5, 8, 3⟩, allOk), (⟨5, 8, 13⟩, allOk)] ≤ 1 :=
  C1_at_most_one_per_day ("1") 5 [(⟨5, 8, 3⟩, allOk), (⟨5, 8, 13⟩, allOk)]
    (udScenario 0 1800) (by decide)

/-- Witness for C2: the plain text `"בוקר טוב"` is a non-command input and
is claimed by a non-fallback handler. -/
theorem C2_witness :
    ∃ hd, dispatchText ("בוקר טוב") = some hd ∧ hd ≠ Handler.log_tap ∧
      accepts hd ("בוקר טוב") = true :=
  C2_total_deterministic ("בוקר טוב") (by decide)

/-- Witness for C5: a concrete user whose `save_user` raises is logged and
the sweep continues with the remaining users. -/
theorem C5_witness :
    sweepLoop ⟨4, 8, 3⟩ (fun _ => oSaveFail)
        [("7", udScenario 0 1500), ("8", udScenario 1 1600)] =
      ((processUser ⟨4, 8, 3⟩ oSaveFail ("7") (udScenario 0 1500)).1 ++
         [Action.logError ("Error processing user " ++ "7" ++ " in daily menu scheduler")] ++
         (sweepLoop ⟨4, 8, 3⟩ (fun _ => oSaveFail) [("8", udScenario 1 1600)]).1,
       ("7", udScenario 0 1500) ::
         (sweepLoop ⟨4, 8, 3⟩ (fun _ => oSaveFail) [("8", udScenario 1 1600)]).2) :=
  C5_error_containment.1 ⟨4, 8, 3⟩ (fun _ => oSaveFail) ("7") (udScenario 0 1500)
    [("8", udScenario 1 1600)] ("save_user raised") (by rfl)

/-- Witness for C7: the sentinel record is left untouched by a sweep at
08:03 with every external call succeeding. -/
theorem C7_witness :
    (processUser ⟨3, 8, 3⟩ allOk ("1") udManual).1.filter Action.isSend = [] ∧
    (processUser ⟨3, 8, 3⟩ allOk ("1") udManual).2 = .ok udManual :=
  C7_manual_sentinel_never_fires ⟨3, 8, 3⟩ allOk ("1") udManual rfl (by decide)

/-- Witness for C8: the write performed for `udExtra` at 09:05 increments
its `day_count` from 4 to 5 and keeps `setup_complete` true. -/
theorem C8_witness :
    ((savedRecord ⟨9, 9, 5⟩ udExtra).flow.getD emptyFlow).day_count.getD 0 =
      (udExtra.flow.getD emptyFlow).day_count.getD 0 + 1 ∧
    (udExtra.flow.getD emptyFlow).day_count.getD 0 <
      ((savedRecord ⟨9, 9, 5⟩ udExtra).flow.getD emptyFlow).day_count.getD 0 ∧
    ((udExtra.flow.getD emptyFlow).setup_complete.getD false) = true ∧
    ((savedRecord ⟨9, 9, 5⟩ udExtra).flow.getD emptyFlow).setup_complete = some true :=
  C8_write_invariants ⟨9, 9, 5⟩ allOk ("2") ("2") udExtra
    (savedRecord ⟨9, 9, 5⟩ udExtra) (by decide)

/-- Witness for C10: the write performed for `udExtra2` at 14:25 replaces
`flow` wholesale (deleting its extra key) and leaves the other top-level
fields unchanged. -/
theorem C10_witness :
    (savedRecord ⟨11, 14, 25⟩ udExtra2).flow =
      some { stage := some ("tracking"), setup_complete := some true,
             day_count := some ((udExtra2.flow.getD emptyFlow).day_count.getD 0 + 1),
             extra := [] } ∧
    (savedRecord ⟨11, 14, 25⟩ udExtra2).last_menu_sent =
      some (StoredTs.iso ⟨11, 14, 25⟩) ∧
    (savedRecord ⟨11, 14, 25⟩ udExtra2).menu_sent_today = some true ∧
    (savedRecord ⟨11, 14, 25⟩ udExtra2).menu_sent_date = some 11 ∧
    (savedRecord ⟨11, 14, 25⟩ udExtra2).daily_menu_enabled = udExtra2.daily_menu_enabled ∧
    (savedRecord ⟨11, 14, 25⟩ udExtra2).preferred_menu_hour = udExtra2.preferred_menu_hour ∧
    (savedRecord ⟨11, 14, 25⟩ udExtra2).calorie_budget = udExtra2.calorie_budget ∧
    (savedRecord ⟨11, 14, 25⟩ udExtra2).extra = udExtra2.extra :=
  C10_flow_wholesale_replacement ⟨11, 14, 25⟩ allOk ("3") ("3") udExtra2
    (savedRecord ⟨11, 14, 25⟩ udExtra2) (by decide)

/-- Witness for C4: on an eligible 08:00 record, a failed step-1 send and a
failed step-2 send each leave the record unchanged with no save, while a
failed pin alone still yields both sends and the save. -/
theorem C4_witness :
    ((processUser ⟨6, 8, 3⟩ ⟨false, true, true, true⟩ ("4")
        (udScenario 2 1900)).1.filter Action.isSave = [] ∧
     (processUser ⟨6, 8, 3⟩ ⟨false, true, true, true⟩ ("4")
        (udScenario 2 1900)).2 = .ok (udScenario 2 1900)) ∧
    ((processUser ⟨6, 8, 3⟩ ⟨true, false, false, true⟩ ("4")
        (udScenario 2 1900)).1.filter Action.isSave = [] ∧
     (processUser ⟨6, 8, 3⟩ ⟨true, false, false, true⟩ ("4")
        (udScenario 2 1900)).2 = .ok (udScenario 2 1900)) ∧
    ((processUser ⟨6, 8, 3⟩ ⟨true, false, true, true⟩ ("4")
        (udScenario 2 1900)).1.filter Action.isSend =
       [Action.sendMessage ("4") (calorieMsg 1900),
        Action.sendMessage ("4") menuInviteText] ∧
     Action.logError ("Error pinning calorie message for user " ++ "4") ∈
       (processUser ⟨6, 8, 3⟩ ⟨true, false, true, true⟩ ("4")
          (udScenario 2 1900)).1 ∧
     (processUser ⟨6, 8, 3⟩ ⟨true, false, true, true⟩ ("4")
        (udScenario 2 1900)).2 =
       .ok (savedRecord ⟨6, 8, 3⟩ (udScenario 2 1900))) :=
  ⟨(C4_send_failure_skips_bookkeeping ⟨6, 8, 3⟩ ⟨false, true, true, true⟩ ("4")
      (udScenario 2 1900)).1 rfl,
   (C4_send_failure_skips_bookkeeping ⟨6, 8, 3⟩ ⟨true, false, false, true⟩ ("4")
      (udScenario 2 1900)).2.1 rfl,
   (C4_send_failure_skips_bookkeeping ⟨6, 8, 3⟩ ⟨true, false, true, true⟩ ("4")
      (udScenario 2 1900)).2.2 (by decide) rfl rfl (by decide) (by decide)
      rfl rfl rfl rfl⟩

/-- A record carrying the same-day success bookkeeping of day 6
(`menu_sent_today` true, `menu_sent_date` today) whose `last_menu_sent`
holds an unparseable string. -/
def udGarbage : UserData :=
  { flow := some ⟨some ("tracking"), some true, some 3, []⟩,
    daily_menu_enabled := true,
    preferred_menu_hour := some ("08:00"),
    last_menu_sent := some (.garbage ("2024-13-45T99:99")),
    calorie_budget := 1700,
    menu_sent_today := some true,
    menu_sent_date := some 6,
    extra := [] }

/-- Witness for C9: a same-day sweep at 08:13 of day 6 processes
`udGarbage` — despite its same-day success flags — into the parse-error
log followed by the full firing sequence. -/
theorem C9_witness :
    processUser ⟨6, 8, 13⟩ allOk ("5") udGarbage =
      (Action.logError ("Error parsing last_menu_sent for user " ++ "5") ::
         (fireActs ⟨6, 8, 13⟩ allOk ("5") udGarbage).1,
       (fireActs ⟨6, 8, 13⟩ allOk ("5") udGarbage).2) :=
  C9_garbage_last_sent_bypasses_guard ⟨6, 8, 13⟩ allOk ("5") udGarbage
    ("2024-13-45T99:99") rfl (by decide) (by decide) rfl rfl (by decide)

end YogevBot
